import Mathlib

/-!
Verification development for the ffscreenrec screen-recorder core.

The definitions below are a shallow embedding of the Python sources in
src/core (command_builder.py, encoder_detect.py, recorder.py): Python
integers become Int, optional values become Option, dictionaries with
insertion order become association lists, and subprocess interactions are
modelled by explicit environment records plus instrumented probe traces.
Each definition mirrors the control flow of the function it is named after.
-/

namespace FFScreenRec

/-- Embeds `CodecType` from src/core/encoder_detect.py. -/
inductive CodecType where
  | H264
  | H265
  | HEVC
  | AV1
deriving DecidableEq

/-- Embeds the `.value` attribute of the `CodecType` Python enum. -/
def CodecType.value : CodecType → String
  | .H264 => "h264"
  | .H265 => "h265"
  | .HEVC => "hevc"
  | .AV1 => "av1"

/-- Embeds `EncoderVendor` from src/core/encoder_detect.py. -/
inductive EncoderVendor where
  | NVIDIA
  | INTEL
  | AMD
  | SOFTWARE
deriving DecidableEq

/-- Embeds the `Encoder` dataclass from src/core/encoder_detect.py. -/
structure Encoder where
  name : String
  codec : CodecType
  vendor : EncoderVendor
  is_hardware : Bool
  presets : List String
  rate_controls : List String
deriving DecidableEq

/-- Embeds `RateControl` from src/core/command_builder.py. -/
inductive RateControl where
  | CBR
  | VBR
  | CRF
  | CQ
deriving DecidableEq

/-- Embeds `Container` from src/core/command_builder.py. -/
inductive Container where
  | MP4
  | MKV
  | MOV
deriving DecidableEq

/-- Embeds the `.value` attribute of the `Container` Python enum. -/
def Container.value : Container → String
  | .MP4 => "mp4"
  | .MKV => "mkv"
  | .MOV => "mov"

/-- Embeds the `RecordingConfig` dataclass from src/core/command_builder.py,
with the dataclass defaults.  Paths are modelled as strings. -/
structure RecordingConfig where
  monitor_index : Int := 0
  region : Option (Int × Int × Int × Int) := none
  fps : Int := 60
  show_cursor : Bool := true
  encoder : Option Encoder := none
  encoder_name : String := "libx264"
  preset : String := "veryfast"
  rate_control : RateControl := RateControl.CBR
  bitrate : Int := 8000
  max_bitrate : Int := 8000
  buffer_size : Int := 16000
  crf : Int := 23
  keyframe_interval : Int := 120
  profile : String := "high"
  scale : Option (Int × Int) := none
  system_audio_enabled : Bool := true
  system_audio_device : String := "default"
  mic_enabled : Bool := false
  mic_device : String := ""
  audio_bitrate : Int := 160
  audio_sample_rate : Int := 48000
  audio_channels : Int := 2
  normalize_audio : Bool := true
  container : Container := Container.MP4
  output_path : String := "Videos/ScreenRec"
  file_pattern : String := "{date}_{time}_{codec}_{res}_{fps}fps"
  segment_minutes : Option Int := none

/-- The static `EncoderDetector.ENCODERS` catalog from
src/core/encoder_detect.py, as an association list in insertion order
(Python dictionaries preserve insertion order). -/
def ENCODERS : List (String × Encoder) :=
  [ ("h264_nvenc",
     ⟨"h264_nvenc", CodecType.H264, EncoderVendor.NVIDIA, true,
      ["p1", "p2", "p3", "p4", "p5", "p6", "p7"], ["cbr", "vbr", "cq"]⟩),
    ("hevc_nvenc",
     ⟨"hevc_nvenc", CodecType.H265, EncoderVendor.NVIDIA, true,
      ["p1", "p2", "p3", "p4", "p5", "p6", "p7"], ["cbr", "vbr", "cq"]⟩),
    ("av1_nvenc",
     ⟨"av1_nvenc", CodecType.AV1, EncoderVendor.NVIDIA, true,
      ["p1", "p2", "p3", "p4", "p5", "p6", "p7"], ["cbr", "vbr", "cq"]⟩),
    ("h264_qsv",
     ⟨"h264_qsv", CodecType.H264, EncoderVendor.INTEL, true,
      ["veryfast", "faster", "fast", "medium", "slow", "slower", "veryslow"],
      ["cbr", "vbr", "cqp", "icq", "la_icq"]⟩),
    ("hevc_qsv",
     ⟨"hevc_qsv", CodecType.H265, EncoderVendor.INTEL, true,
      ["veryfast", "faster", "fast", "medium", "slow", "slower", "veryslow"],
      ["cbr", "vbr", "cqp", "icq", "la_icq"]⟩),
    ("av1_qsv",
     ⟨"av1_qsv", CodecType.AV1, EncoderVendor.INTEL, true,
      ["veryfast", "faster", "fast", "medium", "slow", "slower", "veryslow"],
      ["cbr", "vbr", "cqp"]⟩),
    ("h264_amf",
     ⟨"h264_amf", CodecType.H264, EncoderVendor.AMD, true,
      ["speed", "balanced", "quality"], ["cbr", "vbr_peak", "vbr_latency", "cqp"]⟩),
    ("hevc_amf",
     ⟨"hevc_amf", CodecType.H265, EncoderVendor.AMD, true,
      ["speed", "balanced", "quality"], ["cbr", "vbr_peak", "vbr_latency", "cqp"]⟩),
    ("av1_amf",
     ⟨"av1_amf", CodecType.AV1, EncoderVendor.AMD, true,
      ["speed", "balanced", "quality"], ["cbr", "vbr_peak", "cqp"]⟩),
    ("libx264",
     ⟨"libx264", CodecType.H264, EncoderVendor.SOFTWARE, false,
      ["ultrafast", "superfast", "veryfast", "faster", "fast", "medium",
       "slow", "slower", "veryslow"], ["crf", "cbr", "vbr"]⟩),
    ("libx265",
     ⟨"libx265", CodecType.H265, EncoderVendor.SOFTWARE, false,
      ["ultrafast", "superfast", "veryfast", "faster", "fast", "medium",
       "slow", "slower", "veryslow"], ["crf", "cbr", "vbr"]⟩),
    ("libaom-av1",
     ⟨"libaom-av1", CodecType.AV1, EncoderVendor.SOFTWARE, false,
      ["0", "1", "2", "3", "4", "5", "6", "7", "8"], ["crf", "cbr", "vbr"]⟩),
    ("libsvtav1",
     ⟨"libsvtav1", CodecType.AV1, EncoderVendor.SOFTWARE, false,
      ["0", "1", "2", "3", "4", "5", "6", "7", "8", "9", "10", "11", "12"],
      ["crf", "cbr", "vbr"]⟩) ]

/-- The `libx264` baseline software encoder descriptor of the catalog. -/
def libx264Encoder : Encoder :=
  ⟨"libx264", CodecType.H264, EncoderVendor.SOFTWARE, false,
   ["ultrafast", "superfast", "veryfast", "faster", "fast", "medium",
    "slow", "slower", "veryslow"], ["crf", "cbr", "vbr"]⟩

/-- Embeds `CommandBuilder._get_encoder_by_name`: `ENCODERS.get(name)`. -/
def get_encoder_by_name (name : String) : Option Encoder :=
  (ENCODERS.find? (fun p => p.1 = name)).map Prod.snd

/-- Embeds `CommandBuilder._build_video_input`. -/
def build_video_input (config : RecordingConfig) : List String :=
  ["-f", "gdigrab"]
  ++ ["-framerate", toString config.fps]
  ++ (match config.region with
      | some (x, y, w, h) =>
        ["-offset_x", toString x, "-offset_y", toString y,
         "-video_size", toString w ++ "x" ++ toString h]
      | none => [])
  ++ ["-draw_mouse", if config.show_cursor then "1" else "0"]
  ++ ["-i", "desktop"]

/-- Embeds `CommandBuilder._build_audio_inputs`.  Returns the input
argument list together with the filter-complex string (empty when no mixing
graph is needed).  The Python truthiness test `not config.system_audio_device`
is an emptiness test on the string. -/
def build_audio_inputs (config : RecordingConfig) : List String × String :=
  let sysSkipped := config.system_audio_device = "default" ∨ config.system_audio_device = ""
  let (args1, inputs1, idx1) :=
    if config.system_audio_enabled then
      if sysSkipped then (([] : List String), ([] : List Int), (1 : Int))
      else (["-f", "dshow", "-i", "audio=" ++ config.system_audio_device], [1], 2)
    else ([], [], 1)
  let (args2, inputs2) :=
    if config.mic_enabled ∧ config.mic_device ≠ "" then
      (args1 ++ ["-f", "wasapi", "-i", config.mic_device], inputs1 ++ [idx1])
    else (args1, inputs1)
  let filter_complex :=
    if inputs2.length > 1 then
      let inputs_str := String.join (inputs2.map (fun i => "[" ++ toString i ++ ":a]"))
      let filter_parts :=
        [inputs_str ++ "amix=inputs=" ++ toString inputs2.length
          ++ ":duration=longest:dropout_transition=3"]
      let filter_parts :=
        if config.normalize_audio then filter_parts ++ ["dynaudnorm=f=150:g=31"]
        else filter_parts
      String.intercalate "," filter_parts ++ "[aout]"
    else ""
  (args2, filter_complex)

/-- Embeds `CommandBuilder._build_video_filter`. -/
def build_video_filter (config : RecordingConfig) : String :=
  match config.scale with
  | some (w, h) => "scale=" ++ toString w ++ ":" ++ toString h ++ ":flags=bicubic"
  | none => ""

/-- Embeds `CommandBuilder._build_mappings`. -/
def build_mappings (config : RecordingConfig) (has_audio_filter : Bool) : List String :=
  ["-map", "0:v"]
  ++ (if has_audio_filter then ["-map", "[aout]"]
      else if config.system_audio_enabled ∨ config.mic_enabled then ["-map", "1:a"]
      else [])

/-- Embeds `CommandBuilder._build_nvenc_encoder`.  The sequential
`if/elif/elif` on the rate-control mode adds nothing in the `CRF` case. -/
def build_nvenc_encoder (config : RecordingConfig) (encoder : Encoder) : List String :=
  ["-c:v", encoder.name, "-preset", config.preset, "-tune", "hq"]
  ++ (match config.rate_control with
      | RateControl.CBR =>
        ["-rc", "cbr", "-b:v", toString config.bitrate ++ "k",
         "-maxrate", toString config.max_bitrate ++ "k",
         "-bufsize", toString config.buffer_size ++ "k"]
      | RateControl.VBR =>
        ["-rc", "vbr", "-b:v", toString config.bitrate ++ "k",
         "-maxrate", toString config.max_bitrate ++ "k"]
      | RateControl.CQ => ["-rc", "constqp", "-cq", toString config.crf]
      | RateControl.CRF => [])
  ++ ["-g", toString config.keyframe_interval]
  ++ (if encoder.codec ≠ CodecType.AV1 then
        ["-bf", "2", "-spatial-aq", "1", "-aq-strength", "8"]
      else [])
  ++ (if encoder.codec = CodecType.H264 then ["-profile:v", config.profile] else [])
  ++ ["-pix_fmt", "yuv420p"]

/-- Embeds `CommandBuilder._build_qsv_encoder`. -/
def build_qsv_encoder (config : RecordingConfig) (encoder : Encoder) : List String :=
  ["-c:v", encoder.name, "-preset:v", config.preset]
  ++ (match config.rate_control with
      | RateControl.CBR =>
        ["-b:v", toString config.bitrate ++ "k",
         "-maxrate", toString config.max_bitrate ++ "k",
         "-bufsize", toString config.buffer_size ++ "k"]
      | _ => ["-global_quality", "26"])
  ++ ["-look_ahead", "1", "-g", toString config.keyframe_interval, "-pix_fmt", "nv12"]

/-- Embeds `CommandBuilder._build_amf_encoder`. -/
def build_amf_encoder (config : RecordingConfig) (encoder : Encoder) : List String :=
  ["-c:v", encoder.name, "-quality", config.preset]
  ++ (match config.rate_control with
      | RateControl.CBR => ["-rc", "cbr", "-vb", toString config.bitrate ++ "k"]
      | _ => ["-rc", "vbr_peak", "-vb", toString config.bitrate ++ "k"])
  ++ ["-g", toString config.keyframe_interval, "-pix_fmt", "yuv420p"]

/-- Embeds `CommandBuilder._build_libx264_encoder`. -/
def build_libx264_encoder (config : RecordingConfig) : List String :=
  ["-c:v", "libx264", "-preset", config.preset]
  ++ (if config.rate_control = RateControl.CRF then ["-crf", toString config.crf]
      else
        ["-b:v", toString config.bitrate ++ "k",
         "-maxrate", toString config.max_bitrate ++ "k",
         "-bufsize", toString config.buffer_size ++ "k"])
  ++ ["-profile:v", config.profile, "-g", toString config.keyframe_interval,
      "-pix_fmt", "yuv420p"]

/-- Embeds `CommandBuilder._build_libx265_encoder`. -/
def build_libx265_encoder (config : RecordingConfig) : List String :=
  ["-c:v", "libx265", "-preset", config.preset]
  ++ (if config.rate_control = RateControl.CRF then ["-crf", toString config.crf]
      else
        ["-b:v", toString config.bitrate ++ "k",
         "-maxrate", toString config.max_bitrate ++ "k",
         "-bufsize", toString config.buffer_size ++ "k"])
  ++ ["-g", toString config.keyframe_interval, "-pix_fmt", "yuv420p"]

/-- Embeds `CommandBuilder._build_libaom_encoder`. -/
def build_libaom_encoder (config : RecordingConfig) : List String :=
  ["-c:v", "libaom-av1", "-cpu-used", "5"]
  ++ (if config.rate_control = RateControl.CRF then ["-crf", toString config.crf]
      else ["-b:v", toString config.bitrate ++ "k"])
  ++ ["-g", toString config.keyframe_interval, "-pix_fmt", "yuv420p"]

/-- Embeds `CommandBuilder._build_libsvtav1_encoder`. -/
def build_libsvtav1_encoder (config : RecordingConfig) : List String :=
  ["-c:v", "libsvtav1", "-preset", "6"]
  ++ (if config.rate_control = RateControl.CRF then ["-crf", toString config.crf]
      else
        ["-b:v", toString config.bitrate ++ "k",
         "-maxrate", toString config.max_bitrate ++ "k",
         "-bufsize", toString config.buffer_size ++ "k"])
  ++ ["-g", toString config.keyframe_interval, "-pix_fmt", "yuv420p"]

/-- Embeds `CommandBuilder._build_software_encoder`: dispatch on the
encoder name, every unknown name falling through to the libaom path. -/
def build_software_encoder (config : RecordingConfig) (encoder : Encoder) : List String :=
  if encoder.name = "libx264" then build_libx264_encoder config
  else if encoder.name = "libx265" then build_libx265_encoder config
  else if encoder.name = "libsvtav1" then build_libsvtav1_encoder config
  else build_libaom_encoder config

/-- Embeds `CommandBuilder._build_video_encoder`: resolve the encoder from
the explicit descriptor or the name lookup, fall back to libx264, then
dispatch on the vendor. -/
def build_video_encoder (config : RecordingConfig) : List String :=
  match config.encoder.orElse (fun _ => get_encoder_by_name config.encoder_name) with
  | none => build_libx264_encoder config
  | some encoder =>
    match encoder.vendor with
    | EncoderVendor.NVIDIA => build_nvenc_encoder config encoder
    | EncoderVendor.INTEL => build_qsv_encoder config encoder
    | EncoderVendor.AMD => build_amf_encoder config encoder
    | EncoderVendor.SOFTWARE => build_software_encoder config encoder

/-- Embeds `CommandBuilder._build_audio_encoder`. -/
def build_audio_encoder (config : RecordingConfig) : List String :=
  if ¬ config.system_audio_enabled ∧ ¬ config.mic_enabled then []
  else
    ["-c:a", "aac", "-b:a", toString config.audio_bitrate ++ "k",
     "-ar", toString config.audio_sample_rate, "-ac", toString config.audio_channels]

/-- Embeds `CommandBuilder._build_container_options`. -/
def build_container_options (config : RecordingConfig) : List String :=
  if config.container = Container.MP4 then ["-movflags", "+faststart"] else []

/-- Embeds `CommandBuilder._build_segment_options`. -/
def build_segment_options (minutes : Int) : List String :=
  ["-f", "segment", "-segment_time", toString (minutes * 60), "-reset_timestamps", "1"]

/-- Embeds `CommandBuilder.build_command`.  The Python truthiness test
`if config.segment_minutes:` rejects both None and 0. -/
def build_command (ffmpeg_path : String) (config : RecordingConfig)
    (output_file : String) : List String :=
  let audio_inputs := (build_audio_inputs config).1
  let audio_filter := (build_audio_inputs config).2
  let video_filter := build_video_filter config
  [ffmpeg_path]
  ++ build_video_input config
  ++ audio_inputs
  ++ (if audio_filter ≠ "" then ["-filter_complex", audio_filter] else [])
  ++ (if video_filter ≠ "" then ["-vf", video_filter] else [])
  ++ build_mappings config (audio_filter ≠ "")
  ++ build_video_encoder config
  ++ build_audio_encoder config
  ++ build_container_options config
  ++ (match config.segment_minutes with
      | some m => if m ≠ 0 then build_segment_options m else []
      | none => [])
  ++ [output_file]

/-! ## EncoderDetector (src/core/encoder_detect.py)

Subprocess interactions are modelled by a `DetectEnv` record (engine
reachability, the outcome of the `-encoders` listing, per-encoder listing
and smoke-test outcomes) and the probes actually performed are recorded in
an explicit trace, so that the caching claims can state "no engine list
query and no smoke tests". -/

/-- A probe performed against the external engine: the `-encoders` listing
subprocess, or one `_test_encoder` smoke test. -/
inductive Probe where
  | listQuery
  | smokeTest (name : String)
deriving DecidableEq

/-- The mutable state of an `EncoderDetector` instance:
`self.available_encoders` (an insertion-ordered dictionary, modelled as an
association list) and `self._detected`. -/
structure DetectorState where
  available_encoders : List (String × Encoder)
  detected : Bool
deriving DecidableEq

/-- The state set up by `EncoderDetector.__init__`. -/
def DetectorState.init : DetectorState := ⟨[], false⟩

/-- Environment for one call of `detect_encoders`: reachability of the
engine, whether the listing subprocess raises or exits nonzero, and which
encoders are listed / pass their smoke test. -/
structure DetectEnv where
  ffmpeg_available : Bool
  run_raises : Bool
  run_ok : Bool
  listed : String → Bool
  test_ok : String → Bool

/-- Result of one `detect_encoders` call: the new detector state, the
returned dictionary, and the probes performed during the call. -/
structure DetectOutcome where
  state : DetectorState
  result : List (String × Encoder)
  probes : List Probe

/-- The software rows of the catalog, in catalog order (the fallback set
installed when the engine is unreachable). -/
def softwareEncoders : List (String × Encoder) :=
  ENCODERS.filter (fun p => decide (p.2.vendor = EncoderVendor.SOFTWARE))

/-- Embeds `EncoderDetector.detect_encoders`.  Faithful control flow: a
cache hit returns immediately; the unreachable-engine branch installs the
software rows and returns early, before `self._detected` is ever set; the
normal branch runs the listing query, smoke-tests every listed catalog
encoder, then force-includes `libx264` if missing and sets the flag.  An
exception inside the `try` block (`run_raises`) or a nonzero listing exit
code leaves the scanned set empty and falls through to the fallback. -/
def detect_encoders (s : DetectorState) (env : DetectEnv) : DetectOutcome :=
  if s.detected then ⟨s, s.available_encoders, []⟩
  else if ¬ env.ffmpeg_available then
    ⟨⟨softwareEncoders, false⟩, softwareEncoders, []⟩
  else
    let scanned :=
      if env.run_raises ∨ ¬ env.run_ok then []
      else ENCODERS.filter (fun p => env.listed p.1 && env.test_ok p.1)
    let available :=
      if scanned.any (fun p => p.1 = "libx264") then scanned
      else scanned ++ [("libx264", libx264Encoder)]
    let probes :=
      Probe.listQuery ::
        (if env.run_raises ∨ ¬ env.run_ok then []
         else (ENCODERS.filter (fun p => env.listed p.1)).map
           (fun p => Probe.smokeTest p.1))
    ⟨⟨available, true⟩, available, probes⟩

/-- Embeds `EncoderDetector.refresh`: clear `self._detected`, then re-run
`detect_encoders`. -/
def refresh (s : DetectorState) (env : DetectEnv) : DetectOutcome :=
  detect_encoders ⟨s.available_encoders, false⟩ env

/-- Embeds `EncoderDetector.get_available_by_codec` as the filtered view
over a given available-encoder dictionary. -/
def get_available_by_codec (avail : List (String × Encoder)) (codec : CodecType) :
    List Encoder :=
  (avail.map Prod.snd).filter (fun e => decide (e.codec = codec))

/-- The fixed vendor priority order of `EncoderDetector.get_best_encoder`. -/
def vendorPriority : List EncoderVendor :=
  [EncoderVendor.NVIDIA, EncoderVendor.INTEL, EncoderVendor.AMD, EncoderVendor.SOFTWARE]

/-- The nested loops of `get_best_encoder`: walk the vendor priority list,
returning the first available encoder of the first vendor that has one. -/
def findPriority (encoders : List Encoder) : List EncoderVendor → Option Encoder
  | [] => none
  | v :: vs =>
    match encoders.find? (fun e => decide (e.vendor = v)) with
    | some e => some e
    | none => findPriority encoders vs

/-- Embeds `EncoderDetector.get_best_encoder` over a given
available-encoder dictionary: empty codec view returns `none`; with
`prefer_hardware` the priority walk returns its first hit; otherwise (or if
the walk found nothing) the first element of the codec view is returned. -/
def get_best_encoder (avail : List (String × Encoder)) (codec : CodecType)
    (prefer_hardware : Bool) : Option Encoder :=
  let encoders := get_available_by_codec avail codec
  if encoders.isEmpty then none
  else
    match (if prefer_hardware then findPriority encoders vendorPriority else none) with
    | some e => some e
    | none => encoders.head?

/-! ## Recorder (src/core/recorder.py) -/

/-- Embeds `RecorderState` from src/core/recorder.py. -/
inductive RecorderState where
  | IDLE
  | RECORDING
  | STOPPING
  | ERROR
deriving DecidableEq

/-- One observable interaction of `stop_recording` with the child
process. -/
inductive StopAction where
  | writeQuit
  | waitForFinished (ms : Nat)
  | terminate
  | kill
deriving DecidableEq

/-- Environment for one `stop_recording` call: whether `self.process` is
set, and whether each bounded wait observes the process exit in time. -/
structure StopEnv where
  has_process : Bool
  finishes_after_quit : Bool
  finishes_after_terminate : Bool

/-- Result of one `stop_recording` call: the resulting state, the
`_stop_requested` flag, and the ordered trace of process interactions. -/
structure StopOutcome where
  state : RecorderState
  stop_requested : Bool
  actions : List StopAction
deriving DecidableEq

/-- Embeds `Recorder.stop_recording`: a guard returns unchanged unless the
state is RECORDING; otherwise the state becomes STOPPING and, when a
process exists, the graceful-quit byte is written, a 5000 ms wait follows,
then (only if that wait fails) terminate plus a 3000 ms wait, then (only if
that also fails) kill. -/
def stop_recording (state : RecorderState) (stop_requested : Bool)
    (env : StopEnv) : StopOutcome :=
  if state ≠ RecorderState.RECORDING then ⟨state, stop_requested, []⟩
  else
    let acts :=
      if env.has_process then
        [StopAction.writeQuit, StopAction.waitForFinished 5000]
        ++ (if env.finishes_after_quit then []
            else
              [StopAction.terminate, StopAction.waitForFinished 3000]
              ++ (if env.finishes_after_terminate then [] else [StopAction.kill]))
      else []
    ⟨RecorderState.STOPPING, true, acts⟩

/-- The resolution component of `Recorder._generate_output_filename`
(lines 149-154): explicit scale, else capture region size, else the
literal desktop string. -/
def res_token (config : RecordingConfig) : String :=
  match config.scale with
  | some (w, h) => toString w ++ "x" ++ toString h
  | none =>
    match config.region with
    | some (_, _, w, h) => toString w ++ "x" ++ toString h
    | none => "desktop"

/-- The codec component of `Recorder._generate_output_filename`
(line 157): `config.encoder.codec.value if config.encoder else "h264"`. -/
def codec_token (config : RecordingConfig) : String :=
  match config.encoder with
  | some e => e.codec.value
  | none => "h264"

/-- Whether the first list is an initial segment of the second. -/
def startsWithCs : List Char → List Char → Bool
  | [], _ => true
  | _ :: _, [] => false
  | p :: ps, c :: cs => p = c && startsWithCs ps cs

/-- Python `str.replace` for a non-empty pattern, on character lists:
replaces non-overlapping occurrences left to right.  The fuel argument
(instantiated with the input length, an upper bound on the number of steps)
keeps the recursion structural; every step consumes at least one character
and one unit of fuel. -/
def replaceCsAux (old new : List Char) : Nat → List Char → List Char
  | _, [] => []
  | 0, l => l
  | Nat.succ fuel, c :: cs =>
    if old ≠ [] ∧ startsWithCs old (c :: cs) then
      new ++ replaceCsAux old new fuel ((c :: cs).drop old.length)
    else c :: replaceCsAux old new fuel cs

/-- Python `str.replace` on strings (non-empty pattern). -/
def pyReplace (s old new : String) : String :=
  ⟨replaceCsAux old.toList new.toList s.toList.length s.toList⟩

/-- Embeds `Recorder._generate_output_filename`, with the wall-clock date
and time strings passed in.  The replacement dictionary is applied in
insertion order and each replacement substitutes every occurrence, exactly
like Python `str.replace`. -/
def generate_output_filename (config : RecordingConfig) (dateStr timeStr : String) :
    String :=
  let replacements : List (String × String) :=
    [("{date}", dateStr), ("{time}", timeStr), ("{codec}", codec_token config),
     ("{res}", res_token config), ("{fps}", toString config.fps)]
  let filename := replacements.foldl (fun acc p => pyReplace acc p.1 p.2) config.file_pattern
  config.output_path ++ "/" ++ (filename ++ "." ++ config.container.value)

/-! ## Telemetry parsing (Recorder._parse_ffmpeg_output)

The four `re.search` calls are modelled by character-level scanners over
the chunk.  Each scanner performs the leftmost scan of its literal key and
matches numerals by maximal munch; on diagnostic chunks containing at most
one occurrence of each progress token per line this coincides with the
Python regular expressions. -/

/-- Embeds the `RecorderStats` snapshot from src/core/recorder.py.
Float-valued fields are modelled as rationals (the parsed numerals are
finite decimals). -/
structure RecorderStats where
  duration : ℚ
  file_size : Int
  dropped_frames : Int
  fps : ℚ
  bitrate : ℚ
  encoder_used : String
deriving DecidableEq

/-- The zero-initialised stats of `RecorderStats.__init__`. -/
def RecorderStats.init : RecorderStats := ⟨0, 0, 0, 0, 0, ""⟩

/-- The Python regex class `\s`. -/
def isPySpace (c : Char) : Bool :=
  c = ' ' || c = '\t' || c = '\n' || c = '\r' || c = '\x0b' || c = '\x0c'

/-- Numeric value of a digit string. -/
def digitsToNat (cs : List Char) : Nat :=
  cs.foldl (fun a c => 10 * a + (c.toNat - 48)) 0

/-- Matches the regex fragment `\d+\.?\d*` at the head of the input:
maximal integer digits, an optional dot, maximal fractional digits.
Returns the two digit groups and the remaining input. -/
def matchNumber (cs : List Char) : Option ((List Char × Option (List Char)) × List Char) :=
  let ds := cs.takeWhile Char.isDigit
  if ds.isEmpty then none
  else
    match cs.drop ds.length with
    | '.' :: rest2 =>
      let fs := rest2.takeWhile Char.isDigit
      some ((ds, some fs), rest2.drop fs.length)
    | rest => some ((ds, none), rest)

/-- The rational value of a matched numeral, as Python `float` of the
matched decimal text. -/
def numValue (ds : List Char) (fs : Option (List Char)) : ℚ :=
  (digitsToNat ds : ℚ) +
    (match fs with
     | some f => (digitsToNat f : ℚ) / (10 : ℚ) ^ f.length
     | none => 0)

/-- Models `re.search(key ++ r"\s*(\d+\.?\d*)", text)`: leftmost occurrence
of the literal key followed by optional whitespace and a numeral. -/
def scanKeyNumber (key : List Char) : List Char → Option (List Char × Option (List Char))
  | [] => none
  | c :: cs =>
    if startsWithCs key (c :: cs) then
      match matchNumber (((c :: cs).drop key.length).dropWhile isPySpace) with
      | some (tok, _) => some tok
      | none => scanKeyNumber key cs
    else scanKeyNumber key cs

/-- Models `re.search(r"bitrate=\s*(\d+\.?\d*)kbits/s", text)`: like
`scanKeyNumber` but the numeral must be immediately followed by the
`kbits/s` literal. -/
def scanBitrate : List Char → Option (List Char × Option (List Char))
  | [] => none
  | c :: cs =>
    if startsWithCs ("bitrate=".toList) (c :: cs) then
      match matchNumber (((c :: cs).drop 8).dropWhile isPySpace) with
      | some (tok, rest) =>
        if startsWithCs ("kbits/s".toList) rest then some tok else scanBitrate cs
      | none => scanBitrate cs
    else scanBitrate cs

/-- Matches `(\d+):(\d+):(\d+\.\d+)` at the head of the input, returning
hours, minutes and fractional seconds. -/
def matchClock (cs : List Char) : Option (Nat × Nat × ℚ) :=
  let hs := cs.takeWhile Char.isDigit
  if hs.isEmpty then none
  else
    match cs.drop hs.length with
    | ':' :: r1 =>
      let ms := r1.takeWhile Char.isDigit
      if ms.isEmpty then none
      else
        match r1.drop ms.length with
        | ':' :: r2 =>
          let ss := r2.takeWhile Char.isDigit
          if ss.isEmpty then none
          else
            match r2.drop ss.length with
            | '.' :: r3 =>
              let fs := r3.takeWhile Char.isDigit
              if fs.isEmpty then none
              else some (digitsToNat hs, digitsToNat ms, numValue ss (some fs))
            | _ => none
        | _ => none
    | _ => none

/-- Models `re.search(r"time=(\d+):(\d+):(\d+\.\d+)", text)`. -/
def scanTime : List Char → Option (Nat × Nat × ℚ)
  | [] => none
  | c :: cs =>
    if startsWithCs ("time=".toList) (c :: cs) then
      match matchClock ((c :: cs).drop 5) with
      | some t => some t
      | none => scanTime cs
    else scanTime cs

/-- Leftmost occurrence of a literal key followed by optional whitespace
and an integer; returns the integer and the remaining input. -/
def scanKeyDigits (key : List Char) : List Char → Option (Nat × List Char)
  | [] => none
  | c :: cs =>
    if startsWithCs key (c :: cs) then
      let after := ((c :: cs).drop key.length).dropWhile isPySpace
      let ds := after.takeWhile Char.isDigit
      if ds.isEmpty then scanKeyDigits key cs
      else some (digitsToNat ds, after.drop ds.length)
    else scanKeyDigits key cs

/-- Models `re.search(r"frame=\s*(\d+).*dup=\s*(\d+).*drop=\s*(\d+)",
text)` and returns the drop group: a frame token followed, on the same line
(the dot of the pattern does not cross newlines), by a dup token and then a
drop token. -/
def scanDrop : List Char → Option Nat
  | [] => none
  | c :: cs =>
    if startsWithCs ("frame=".toList) (c :: cs) then
      let after := ((c :: cs).drop 6).dropWhile isPySpace
      let ds := after.takeWhile Char.isDigit
      if ds.isEmpty then scanDrop cs
      else
        let line := (after.drop ds.length).takeWhile (fun ch => ch ≠ '\n')
        match scanKeyDigits ("dup=".toList) line with
        | some (_, rest1) =>
          match scanKeyDigits ("drop=".toList) rest1 with
          | some (d, _) => some d
          | none => scanDrop cs
        | none => scanDrop cs
    else scanDrop cs

/-- Embeds `Recorder._parse_ffmpeg_output`: each of the four patterns is
searched independently, and each successful match overwrites exactly its
own field of the stats snapshot. -/
def parse_ffmpeg_output (stats : RecorderStats) (text : String) : RecorderStats :=
  let cs := text.toList
  let stats1 :=
    match scanKeyNumber ("fps=".toList) cs with
    | some (ds, fs) => { stats with fps := numValue ds fs }
    | none => stats
  let stats2 :=
    match scanBitrate cs with
    | some (ds, fs) => { stats1 with bitrate := numValue ds fs }
    | none => stats1
  let stats3 :=
    match scanTime cs with
    | some (h, m, s) => { stats2 with duration := (h : ℚ) * 3600 + (m : ℚ) * 60 + s }
    | none => stats2
  match scanDrop cs with
  | some d => { stats3 with dropped_frames := (d : Int) }
  | none => stats3

/-! ## Theorems about the claims -/

/-- Claim C9: the resolution filename token resolves in priority order —
the explicit output scale as WxH if set, else the capture rectangle width
and height as WxH, else the literal string desktop. -/
theorem claim_C9_res_token (config : RecordingConfig) :
    (∀ w h, config.scale = some (w, h) →
      res_token config = toString w ++ "x" ++ toString h)
    ∧ (∀ x y w h, config.scale = none → config.region = some (x, y, w, h) →
      res_token config = toString w ++ "x" ++ toString h)
    ∧ (config.scale = none → config.region = none → res_token config = "desktop") := by
  refine ⟨?_, ?_, ?_⟩ <;> intros <;> simp_all [res_token]

/-- Witness for claim C9 at concrete configurations. -/
theorem claim_C9_witness :
    res_token ({} : RecordingConfig) = "desktop"
    ∧ res_token { scale := some (1280, 720) } = "1280x720"
    ∧ res_token { region := some (100, 200, 1920, 1080) } = "1920x1080" := by
  refine ⟨(claim_C9_res_token {}).2.2 rfl rfl, ?_, ?_⟩
  · rw [(claim_C9_res_token { scale := some (1280, 720) }).1 1280 720 rfl]; decide
  · rw [(claim_C9_res_token { region := some (100, 200, 1920, 1080) }).2.1
      100 200 1920 1080 rfl rfl]
    decide

/-- Claim C10: with no explicit encoder descriptor the codec filename token
is the literal h264, regardless of the configured encoder name; the
generated filename is therefore the one the baseline software H264 encoder
would produce. -/
theorem claim_C10_codec_token (config : RecordingConfig) (h : config.encoder = none) :
    codec_token config = "h264"
    ∧ ∀ dateStr timeStr,
        generate_output_filename config dateStr timeStr =
          generate_output_filename { config with encoder := some libx264Encoder }
            dateStr timeStr := by
  constructor
  · simp [codec_token, h]
  · intro d t
    simp [generate_output_filename, codec_token, h, libx264Encoder, CodecType.value,
      res_token]

/-- Witness for claim C10: encoder name libx265 with no descriptor still
yields h264 in the generated filename. -/
theorem claim_C10_witness :
    codec_token { encoder_name := "libx265" } = "h264"
    ∧ generate_output_filename { encoder_name := "libx265" } "20260101" "235959" =
        "Videos/ScreenRec/20260101_235959_h264_desktop_60fps.mp4" :=
  ⟨(claim_C10_codec_token { encoder_name := "libx265" } rfl).1, by decide⟩

/-- Claim C7: when neither an explicit encoder descriptor is set nor the
configured encoder name resolves in the catalog, the builder emits the
baseline software H264 stanza; command construction is a total function of
the configuration (the embedding returns a plain list, never an error). -/
theorem claim_C7_fallback (config : RecordingConfig)
    (h1 : config.encoder = none)
    (h2 : get_encoder_by_name config.encoder_name = none) :
    build_video_encoder config = build_libx264_encoder config
    ∧ ∀ ffmpeg_path output_file, ∃ pre post,
        build_command ffmpeg_path config output_file =
          pre ++ build_libx264_encoder config ++ post := by
  have hv : build_video_encoder config = build_libx264_encoder config := by
    unfold build_video_encoder
    rw [h1]
    simp [Option.orElse, h2]
  refine ⟨hv, fun f o => ?_⟩
  refine ⟨[f] ++ build_video_input config ++ (build_audio_inputs config).1
      ++ (if (build_audio_inputs config).2 ≠ "" then
            ["-filter_complex", (build_audio_inputs config).2] else [])
      ++ (if build_video_filter config ≠ "" then ["-vf", build_video_filter config] else [])
      ++ build_mappings config ((build_audio_inputs config).2 ≠ ""),
    build_audio_encoder config ++ build_container_options config
      ++ (match config.segment_minutes with
          | some m => if m ≠ 0 then build_segment_options m else []
          | none => [])
      ++ [o], ?_⟩
  unfold build_command
  rw [hv]
  simp [List.append_assoc]

/-- Witness for claim C7: an unresolvable encoder name degrades to the
libx264 stanza. -/
theorem claim_C7_witness :
    get_encoder_by_name "h264_fake" = none
    ∧ build_video_encoder { encoder_name := "h264_fake" } =
        build_libx264_encoder { encoder_name := "h264_fake" }
    ∧ ∃ pre post,
        build_command "ffmpeg.exe" { encoder_name := "h264_fake" } "out.mp4" =
          pre ++ build_libx264_encoder { encoder_name := "h264_fake" } ++ post :=
  ⟨by decide,
   (claim_C7_fallback { encoder_name := "h264_fake" } rfl (by decide)).1,
   (claim_C7_fallback { encoder_name := "h264_fake" } rfl (by decide)).2
     "ffmpeg.exe" "out.mp4"⟩

/-- Claim C2, divergence witness: on the default configuration the enabled
system-audio source is silently skipped (no audio input stanza, no filter
graph), yet the mapping stanza still emits a map of input 1 — the built
command maps a nonexistent audio input instead of omitting the audio
mapping. -/
theorem claim_C2_mapping_bug :
    (build_audio_inputs ({} : RecordingConfig)).1 = []
    ∧ (build_audio_inputs ({} : RecordingConfig)).2 = ""
    ∧ build_mappings ({} : RecordingConfig) false = ["-map", "0:v", "-map", "1:a"]
    ∧ "1:a" ∈ build_command "ffmpeg.exe" ({} : RecordingConfig) "out.mp4" := by
  decide

/-- Claim C5: while RECORDING with a live process, stop transitions to
STOPPING and performs, in order, the graceful-quit write, a 5000 ms wait,
then — only if that wait failed — terminate and a 3000 ms wait, then — only
if that also failed — kill; in any other state stop changes nothing. -/
theorem claim_C5_stop_escalation (state : RecorderState) (sr : Bool) (env : StopEnv) :
    (state = RecorderState.RECORDING → env.has_process = true →
      stop_recording state sr env =
        ⟨RecorderState.STOPPING, true,
          [StopAction.writeQuit, StopAction.waitForFinished 5000]
          ++ (if env.finishes_after_quit then []
              else [StopAction.terminate, StopAction.waitForFinished 3000]
                ++ (if env.finishes_after_terminate then [] else [StopAction.kill]))⟩)
    ∧ (StopAction.terminate ∈ (stop_recording state sr env).actions →
        env.finishes_after_quit = false)
    ∧ (StopAction.kill ∈ (stop_recording state sr env).actions →
        env.finishes_after_quit = false ∧ env.finishes_after_terminate = false)
    ∧ (state ≠ RecorderState.RECORDING → stop_recording state sr env = ⟨state, sr, []⟩) := by
  obtain ⟨hp, fq, ft⟩ := env
  by_cases hs : state = RecorderState.RECORDING <;>
    cases hp <;> cases fq <;> cases ft <;>
    simp_all [stop_recording]

/-- Witness for claim C5: a process that ignores both the graceful quit and
terminate produces the full five-step escalation trace; stop in IDLE is a
no-op. -/
theorem claim_C5_witness :
    stop_recording RecorderState.RECORDING false ⟨true, false, false⟩ =
      ⟨RecorderState.STOPPING, true,
        [StopAction.writeQuit, StopAction.waitForFinished 5000, StopAction.terminate,
         StopAction.waitForFinished 3000, StopAction.kill]⟩
    ∧ stop_recording RecorderState.IDLE false ⟨true, false, false⟩ =
        ⟨RecorderState.IDLE, false, []⟩ := by
  constructor
  · have h := (claim_C5_stop_escalation RecorderState.RECORDING false
      ⟨true, false, false⟩).1 rfl rfl
    simpa using h
  · exact (claim_C5_stop_escalation RecorderState.IDLE false
      ⟨true, false, false⟩).2.2.2 (by decide)

/-- Claim C3: calling detect twice without an intervening refresh returns
the identical result with an unchanged state and performs no engine list
query and no smoke tests on the second call, whatever the (fixed)
reachability of the engine; after refresh, detection re-runs
unconditionally — its outcome is that of detection from a cleared cache,
independent of the prior cache contents. -/
theorem claim_C3_detect_cached (s : DetectorState) (env : DetectEnv) :
    ((detect_encoders (detect_encoders s env).state env).result =
        (detect_encoders s env).result
      ∧ (detect_encoders (detect_encoders s env).state env).state =
        (detect_encoders s env).state
      ∧ (detect_encoders (detect_encoders s env).state env).probes = [])
    ∧ ((refresh s env).result = (detect_encoders DetectorState.init env).result
      ∧ (refresh s env).probes = (detect_encoders DetectorState.init env).probes) := by
  obtain ⟨avail, det⟩ := s
  obtain ⟨fa, rr, ro, listed, tok⟩ := env
  cases det <;> cases fa <;> cases rr <;> cases ro <;>
    simp [detect_encoders, refresh, DetectorState.init]

/-- Detector states reachable through the public operations of an
`EncoderDetector` instance, starting from the constructor state. -/
inductive ReachableDetector : DetectorState → Prop where
  | init : ReachableDetector DetectorState.init
  | detect_step (s : DetectorState) (env : DetectEnv) :
      ReachableDetector s → ReachableDetector (detect_encoders s env).state
  | refresh_step (s : DetectorState) (env : DetectEnv) :
      ReachableDetector s → ReachableDetector (refresh s env).state

/-- After any `detect_encoders` call the stored dictionary and the returned
dictionary coincide. -/
theorem detect_avail_eq_result (s : DetectorState) (env : DetectEnv) :
    (detect_encoders s env).state.available_encoders = (detect_encoders s env).result := by
  by_cases hd : s.detected = true <;>
    by_cases hf : env.ffmpeg_available = true <;>
    simp [detect_encoders, hd, hf]

/-- Any pair of the static catalog whose key is the libx264 name is the
libx264 row itself. -/
theorem catalog_libx264_unique :
    ∀ p ∈ ENCODERS, p.1 = "libx264" → p = ("libx264", libx264Encoder) := by
  decide

/-- A detection run from an uncached state always returns a dictionary
containing the baseline libx264 row, in every branch (engine unreachable,
listing failure or internal error, and normal detection). -/
theorem libx264_mem_detect_fresh (s : DetectorState) (env : DetectEnv)
    (h : s.detected = false) :
    ("libx264", libx264Encoder) ∈ (detect_encoders s env).result := by
  obtain ⟨fa, rr, ro, listed, tok⟩ := env
  cases fa <;> cases rr <;> cases ro <;>
    simp [detect_encoders, h, softwareEncoders] <;>
    try decide
  all_goals {
    by_cases hany :
        ((ENCODERS.filter (fun p => listed p.1 && tok p.1)).any
          (fun p => p.1 = "libx264")) = true
    · rcases List.any_eq_true.mp hany with ⟨p, hp, hkey⟩
      have hpe : p ∈ ENCODERS := List.mem_of_mem_filter hp
      have hpx := catalog_libx264_unique p hpe (of_decide_eq_true hkey)
      simp only [hany, if_true]
      rwa [hpx] at hp
    · simp [hany]
  }

/-- Invariant: every reachable detector state that has the detected flag
set stores the baseline libx264 row. -/
theorem reachable_detected_mem (s : DetectorState) (h : ReachableDetector s) :
    s.detected = true → ("libx264", libx264Encoder) ∈ s.available_encoders := by
  induction h with
  | init => intro hd; simp [DetectorState.init] at hd
  | detect_step s env hs ih =>
    intro _
    rw [detect_avail_eq_result]
    by_cases hd : s.detected = true
    · have hres : (detect_encoders s env).result = s.available_encoders := by
        simp [detect_encoders, hd]
      rw [hres]
      exact ih hd
    · exact libx264_mem_detect_fresh s env (by simpa using hd)
  | refresh_step s env hs ih =>
    intro _
    simp only [refresh]
    rw [detect_avail_eq_result]
    exact libx264_mem_detect_fresh ⟨s.available_encoders, false⟩ env rfl

/-- Claim C4: every result of `detect_encoders`, from any reachable
detector state and in every environment (engine unreachable, listing
failure or internal error, normal detection with the libx264 smoke test
skipped or failed), contains the baseline software H264 encoder; the
detector never reports an empty encoder set. -/
theorem claim_C4_libx264_always (s : DetectorState) (env : DetectEnv)
    (h : ReachableDetector s) :
    ("libx264", libx264Encoder) ∈ (detect_encoders s env).result := by
  by_cases hd : s.detected = true
  · have hres : (detect_encoders s env).result = s.available_encoders := by
      simp [detect_encoders, hd]
    rw [hres]
    exact reachable_detected_mem s h hd
  · exact libx264_mem_detect_fresh s env (by simpa using hd)

/-- Witness for claim C4 at the constructor state with an unreachable
engine. -/
theorem claim_C4_witness :
    ("libx264", libx264Encoder) ∈
      (detect_encoders DetectorState.init
        ⟨false, false, false, fun _ => false, fun _ => false⟩).result :=
  claim_C4_libx264_always DetectorState.init
    ⟨false, false, false, fun _ => false, fun _ => false⟩ ReachableDetector.init

/-- Position of a vendor in the fixed priority order
NVIDIA > Intel > AMD > Software. -/
def vendorRank : EncoderVendor → Nat
  | EncoderVendor.NVIDIA => 0
  | EncoderVendor.INTEL => 1
  | EncoderVendor.AMD => 2
  | EncoderVendor.SOFTWARE => 3

/-- A successful priority walk returns a member of the candidate list. -/
theorem findPriority_mem (l : List Encoder) (vs : List EncoderVendor) (e : Encoder)
    (h : findPriority l vs = some e) : e ∈ l := by
  induction vs with
  | nil => simp [findPriority] at h
  | cons v vs ih =>
    unfold findPriority at h
    cases hf : l.find? (fun x => decide (x.vendor = v)) with
    | some a =>
      rw [hf] at h
      obtain rfl : a = e := by simpa using h
      exact List.mem_of_find?_eq_some hf
    | none =>
      rw [hf] at h
      exact ih h

/-- A failed priority walk means no candidate has any of the walked
vendors. -/
theorem findPriority_eq_none (l : List Encoder) (vs : List EncoderVendor)
    (h : findPriority l vs = none) : ∀ v ∈ vs, ∀ e ∈ l, e.vendor ≠ v := by
  induction vs with
  | nil => simp
  | cons v vs ih =>
    intro v' hv' e he
    unfold findPriority at h
    cases hf : l.find? (fun x => decide (x.vendor = v)) with
    | some a => rw [hf] at h; simp at h
    | none =>
      rw [hf] at h
      rcases List.mem_cons.mp hv' with rfl | hv'
      · have := List.find?_eq_none.mp hf e he
        simpa using this
      · exact ih h v' hv' e he

/-- The full priority walk returns an encoder of minimal vendor rank. -/
theorem findPriority_min (l : List Encoder) (e : Encoder)
    (h : findPriority l vendorPriority = some e) :
    ∀ e' ∈ l, vendorRank e.vendor ≤ vendorRank e'.vendor := by
  intro e' he'
  simp only [vendorPriority, findPriority] at h
  cases h0 : l.find? (fun x => decide (x.vendor = EncoderVendor.NVIDIA)) with
  | some a =>
    rw [h0] at h
    replace h : a = e := by simpa using h
    have ha : e.vendor = EncoderVendor.NVIDIA := by
      have := List.find?_some h0
      rw [← h]
      simpa using this
    simp [ha, vendorRank]
  | none =>
    have hNV : ∀ x ∈ l, x.vendor ≠ EncoderVendor.NVIDIA := by
      intro x hx
      have := List.find?_eq_none.mp h0 x hx
      simpa using this
    rw [h0] at h
    cases h1 : l.find? (fun x => decide (x.vendor = EncoderVendor.INTEL)) with
    | some a =>
      rw [h1] at h
      replace h : a = e := by simpa using h
      have ha : e.vendor = EncoderVendor.INTEL := by
        have := List.find?_some h1
        rw [← h]
        simpa using this
      have hne := hNV e' he'
      cases hv : e'.vendor <;> simp_all [vendorRank]
    | none =>
      have hIN : ∀ x ∈ l, x.vendor ≠ EncoderVendor.INTEL := by
        intro x hx
        have := List.find?_eq_none.mp h1 x hx
        simpa using this
      rw [h1] at h
      cases h2 : l.find? (fun x => decide (x.vendor = EncoderVendor.AMD)) with
      | some a =>
        rw [h2] at h
        replace h : a = e := by simpa using h
        have ha : e.vendor = EncoderVendor.AMD := by
          have := List.find?_some h2
          rw [← h]
          simpa using this
        have hne := hNV e' he'
        have hni := hIN e' he'
        cases hv : e'.vendor <;> simp_all [vendorRank]
      | none =>
        rw [h2] at h
        cases h3 : l.find? (fun x => decide (x.vendor = EncoderVendor.SOFTWARE)) with
        | some a =>
          rw [h3] at h
          replace h : a = e := by simpa using h
          have ha : e.vendor = EncoderVendor.SOFTWARE := by
            have := List.find?_some h3
            rw [← h]
            simpa using this
          cases hv : e'.vendor <;> simp_all [vendorRank]
        | none =>
          rw [h3] at h
          simp at h

/-- Claim C6: over any available-encoder dictionary, the best-encoder query
returns none exactly when no encoder of the requested codec is available;
any returned encoder is an available encoder of that codec; with hardware
preference the returned encoder has minimal position in the fixed vendor
priority order NVIDIA > Intel > AMD > Software among the available
candidates; without hardware preference the first available candidate is
returned. -/
theorem claim_C6_best_encoder (avail : List (String × Encoder)) (codec : CodecType) :
    (∀ prefer_hardware, (get_best_encoder avail codec prefer_hardware = none ↔
        get_available_by_codec avail codec = []))
    ∧ (∀ prefer_hardware e, get_best_encoder avail codec prefer_hardware = some e →
        e ∈ get_available_by_codec avail codec ∧ e.codec = codec)
    ∧ (∀ e, get_best_encoder avail codec true = some e →
        ∀ e' ∈ get_available_by_codec avail codec,
          vendorRank e.vendor ≤ vendorRank e'.vendor)
    ∧ get_best_encoder avail codec false = (get_available_by_codec avail codec).head? := by
  have hmemc : ∀ e, e ∈ get_available_by_codec avail codec → e.codec = codec := by
    intro e he
    have := (List.mem_filter.mp he).2
    simpa using this
  have hhead : ∀ e, (get_available_by_codec avail codec).head? = some e →
      e ∈ get_available_by_codec avail codec := by
    intro e he
    cases hl : get_available_by_codec avail codec with
    | nil => rw [hl] at he; simp at he
    | cons a as =>
      rw [hl] at he
      replace he : a = e := by simpa [List.head?] using he
      rw [← he]
      exact List.mem_cons_self a as
  refine ⟨?_, ?_, ?_, ?_⟩
  · intro ph
    constructor
    · intro hnone
      by_cases hemp : (get_available_by_codec avail codec).isEmpty = true
      · exact List.isEmpty_iff.mp hemp
      · exfalso
        simp only [get_best_encoder, hemp, if_false, Bool.false_eq_true] at hnone
        cases hfp : (if ph then findPriority (get_available_by_codec avail codec)
            vendorPriority else none) with
        | some a => rw [hfp] at hnone; simp at hnone
        | none =>
          rw [hfp] at hnone
          cases hl : get_available_by_codec avail codec with
          | nil => rw [hl] at hemp; simp at hemp
          | cons a as => rw [hl] at hnone; simp at hnone
    · intro hl
      simp [get_best_encoder, hl]
  · intro ph e hsome
    by_cases hemp : (get_available_by_codec avail codec).isEmpty = true
    · simp [get_best_encoder, hemp] at hsome
    · simp only [get_best_encoder, hemp, if_false, Bool.false_eq_true] at hsome
      cases hfp : (if ph then findPriority (get_available_by_codec avail codec)
          vendorPriority else none) with
      | some a =>
        rw [hfp] at hsome
        replace hsome : a = e := by simpa using hsome
        rw [← hsome]
        have hmem : a ∈ get_available_by_codec avail codec := by
          cases hph : ph
          · rw [hph] at hfp; simp at hfp
          · rw [hph] at hfp
            simp only [if_true] at hfp
            exact findPriority_mem _ _ _ hfp
        exact ⟨hmem, hmemc a hmem⟩
      | none =>
        rw [hfp] at hsome
        have hmem := hhead e hsome
        exact ⟨hmem, hmemc e hmem⟩
  · intro e hsome e' he'
    by_cases hemp : (get_available_by_codec avail codec).isEmpty = true
    · simp [get_best_encoder, hemp] at hsome
    · simp only [get_best_encoder, hemp, if_false, Bool.false_eq_true, if_true] at hsome
      cases hfp : findPriority (get_available_by_codec avail codec) vendorPriority with
      | some a =>
        rw [hfp] at hsome
        replace hsome : a = e := by simpa using hsome
        rw [← hsome]
        exact findPriority_min _ _ hfp e' he'
      | none =>
        exfalso
        have hnone := findPriority_eq_none _ _ hfp
        cases hv : e'.vendor
        · exact hnone EncoderVendor.NVIDIA (by simp [vendorPriority]) e' he' hv
        · exact hnone EncoderVendor.INTEL (by simp [vendorPriority]) e' he' hv
        · exact hnone EncoderVendor.AMD (by simp [vendorPriority]) e' he' hv
        · exact hnone EncoderVendor.SOFTWARE (by simp [vendorPriority]) e' he' hv
  · by_cases hemp : (get_available_by_codec avail codec).isEmpty = true
    · rw [List.isEmpty_iff.mp hemp]
      simp [get_best_encoder, hemp]
    · simp [get_best_encoder, hemp]

/-- The catalog NVIDIA H264 descriptor, used by concrete witnesses. -/
def h264NvencEncoder : Encoder :=
  ⟨"h264_nvenc", CodecType.H264, EncoderVendor.NVIDIA, true,
   ["p1", "p2", "p3", "p4", "p5", "p6", "p7"], ["cbr", "vbr", "cq"]⟩

/-- The catalog AMD H264 descriptor, used by concrete witnesses. -/
def h264AmfEncoder : Encoder :=
  ⟨"h264_amf", CodecType.H264, EncoderVendor.AMD, true,
   ["speed", "balanced", "quality"], ["cbr", "vbr_peak", "vbr_latency", "cqp"]⟩

/-- Witness for claim C6: with NVIDIA and AMD H264 encoders both available
the NVIDIA one is returned, and a codec with no available encoder yields
none. -/
theorem claim_C6_witness :
    get_best_encoder [("libx264", libx264Encoder), ("h264_amf", h264AmfEncoder),
        ("h264_nvenc", h264NvencEncoder)] CodecType.H264 true = some h264NvencEncoder
    ∧ get_best_encoder [("libx264", libx264Encoder)] CodecType.AV1 true = none := by
  constructor
  · decide
  · exact ((claim_C6_best_encoder [("libx264", libx264Encoder)] CodecType.AV1).1
      true).mpr (by decide)

/-- Modelled from the spec: the rate-control columns (CBR, VBR, CQ/CRF) of
the vendor dispatch table in section 4.3, following the spec words.  The
CQ/CRF column is read at each vendor's quality mode: CQ for NVIDIA (whose
catalog rate controls are cbr/vbr/cq) and CRF for the software encoders
(whose catalog rate controls are crf/cbr/vbr); for Intel the spec assigns
the CQ/CRF column the same global-quality fallback as VBR, and for AMD the
CQ/CRF column falls into the VBR path.  Cells outside the table are
`none`. -/
def specTableRcFlags (vendor : EncoderVendor) (rc : RateControl)
    (config : RecordingConfig) : Option (List String) :=
  match vendor, rc with
  | EncoderVendor.NVIDIA, RateControl.CBR =>
    some ["-rc", "cbr", "-b:v", toString config.bitrate ++ "k",
      "-maxrate", toString config.max_bitrate ++ "k",
      "-bufsize", toString config.buffer_size ++ "k"]
  | EncoderVendor.NVIDIA, RateControl.VBR =>
    some ["-rc", "vbr", "-b:v", toString config.bitrate ++ "k",
      "-maxrate", toString config.max_bitrate ++ "k"]
  | EncoderVendor.NVIDIA, RateControl.CQ =>
    some ["-rc", "constqp", "-cq", toString config.crf]
  | EncoderVendor.NVIDIA, RateControl.CRF => none
  | EncoderVendor.INTEL, RateControl.CBR =>
    some ["-b:v", toString config.bitrate ++ "k",
      "-maxrate", toString config.max_bitrate ++ "k",
      "-bufsize", toString config.buffer_size ++ "k"]
  | EncoderVendor.INTEL, _ => some ["-global_quality", "26"]
  | EncoderVendor.AMD, RateControl.CBR =>
    some ["-rc", "cbr", "-vb", toString config.bitrate ++ "k"]
  | EncoderVendor.AMD, _ =>
    some ["-rc", "vbr_peak", "-vb", toString config.bitrate ++ "k"]
  | EncoderVendor.SOFTWARE, RateControl.CRF => some ["-crf", toString config.crf]
  | EncoderVendor.SOFTWARE, RateControl.CQ => none
  | EncoderVendor.SOFTWARE, _ =>
    some ["-b:v", toString config.bitrate ++ "k",
      "-maxrate", toString config.max_bitrate ++ "k",
      "-bufsize", toString config.buffer_size ++ "k"]

/-- The rate-control cells as the code actually emits them: identical to
`specTableRcFlags` except that the libaom software path (the libaom-av1
encoder, and any software encoder whose name is not one of the three named
software dispatch targets) emits only the bitrate flag in its CBR/VBR
cell — no maxrate and no bufsize. -/
def amendedRcCell (enc : Encoder) (rc : RateControl)
    (config : RecordingConfig) : Option (List String) :=
  match enc.vendor with
  | EncoderVendor.SOFTWARE =>
    if enc.name = "libx264" ∨ enc.name = "libx265" ∨ enc.name = "libsvtav1" then
      specTableRcFlags EncoderVendor.SOFTWARE rc config
    else
      match rc with
      | RateControl.CRF => some ["-crf", toString config.crf]
      | RateControl.CQ => none
      | _ => some ["-b:v", toString config.bitrate ++ "k"]
  | v => specTableRcFlags v rc config

/-- The flags the vendor-specific encoder builders emit before the
rate-control cell. -/
def encoderStanzaHeader (config : RecordingConfig) (enc : Encoder) : List String :=
  match enc.vendor with
  | EncoderVendor.NVIDIA => ["-c:v", enc.name, "-preset", config.preset, "-tune", "hq"]
  | EncoderVendor.INTEL => ["-c:v", enc.name, "-preset:v", config.preset]
  | EncoderVendor.AMD => ["-c:v", enc.name, "-quality", config.preset]
  | EncoderVendor.SOFTWARE =>
    if enc.name = "libx264" then ["-c:v", "libx264", "-preset", config.preset]
    else if enc.name = "libx265" then ["-c:v", "libx265", "-preset", config.preset]
    else if enc.name = "libsvtav1" then ["-c:v", "libsvtav1", "-preset", "6"]
    else ["-c:v", "libaom-av1", "-cpu-used", "5"]

/-- The always-on extras the vendor-specific encoder builders emit after
the rate-control cell. -/
def encoderStanzaTail (config : RecordingConfig) (enc : Encoder) : List String :=
  match enc.vendor with
  | EncoderVendor.NVIDIA =>
    ["-g", toString config.keyframe_interval]
    ++ (if enc.codec ≠ CodecType.AV1 then
          ["-bf", "2", "-spatial-aq", "1", "-aq-strength", "8"]
        else [])
    ++ (if enc.codec = CodecType.H264 then ["-profile:v", config.profile] else [])
    ++ ["-pix_fmt", "yuv420p"]
  | EncoderVendor.INTEL =>
    ["-look_ahead", "1", "-g", toString config.keyframe_interval, "-pix_fmt", "nv12"]
  | EncoderVendor.AMD =>
    ["-g", toString config.keyframe_interval, "-pix_fmt", "yuv420p"]
  | EncoderVendor.SOFTWARE =>
    if enc.name = "libx264" then
      ["-profile:v", config.profile, "-g", toString config.keyframe_interval,
       "-pix_fmt", "yuv420p"]
    else ["-g", toString config.keyframe_interval, "-pix_fmt", "yuv420p"]

/-- The catalog libaom-av1 descriptor, used by concrete counterexamples. -/
def libaomEncoder : Encoder :=
  ⟨"libaom-av1", CodecType.AV1, EncoderVendor.SOFTWARE, false,
   ["0", "1", "2", "3", "4", "5", "6", "7", "8"], ["crf", "cbr", "vbr"]⟩

/-- Claim C1 as stated fails on the libaom software path: for the
libaom-av1 encoder in CBR mode the dispatch table prescribes
bitrate + maxrate + bufsize, but the emitted stanza carries no maxrate (and
no bufsize) flag. -/
theorem claim_C1_counterexample :
    ({ encoder := some libaomEncoder } : RecordingConfig).rate_control = RateControl.CBR
    ∧ specTableRcFlags EncoderVendor.SOFTWARE RateControl.CBR
        { encoder := some libaomEncoder } =
      some ["-b:v", "8000k", "-maxrate", "8000k", "-bufsize", "16000k"]
    ∧ build_video_encoder { encoder := some libaomEncoder } =
        ["-c:v", "libaom-av1", "-cpu-used", "5", "-b:v", "8000k", "-g", "120",
         "-pix_fmt", "yuv420p"]
    ∧ "-maxrate" ∉ build_video_encoder { encoder := some libaomEncoder } := by
  decide

/-- Claim C1, amended: for every configuration whose resolved encoder
descriptor and rate-control mode hit a cell of the dispatch table, the
emitted video-encoder stanza is exactly the vendor header, then the cell's
rate-control flags, then the vendor extras — with the one correction the
code forces: the libaom software path emits only the bitrate flag in its
CBR/VBR cell.  In particular the NVIDIA quality cell emits rc=constqp plus
the cq value and the named software encoders' quality cell emits the crf
value. -/
theorem claim_C1_amended_table (config : RecordingConfig) (enc : Encoder)
    (fl : List String) (h1 : config.encoder = some enc)
    (h2 : amendedRcCell enc config.rate_control config = some fl) :
    build_video_encoder config =
      encoderStanzaHeader config enc ++ fl ++ encoderStanzaTail config enc := by
  cases hv : enc.vendor <;> cases hrc : config.rate_control <;>
    by_cases hn1 : enc.name = "libx264" <;> by_cases hn2 : enc.name = "libx265" <;>
    by_cases hn3 : enc.name = "libsvtav1" <;>
    simp_all [build_video_encoder, h1, Option.orElse, build_nvenc_encoder,
      build_qsv_encoder, build_amf_encoder, build_software_encoder,
      build_libx264_encoder, build_libx265_encoder, build_libsvtav1_encoder,
      build_libaom_encoder, amendedRcCell, specTableRcFlags,
      encoderStanzaHeader, encoderStanzaTail]

/-- A configuration selecting the NVIDIA H264 encoder in constant-quality
mode. -/
def cfgNvencCq : RecordingConfig :=
  { encoder := some h264NvencEncoder, rate_control := RateControl.CQ }

/-- A configuration selecting the software libx264 encoder in CRF mode. -/
def cfgX264Crf : RecordingConfig :=
  { encoder := some libx264Encoder, rate_control := RateControl.CRF }

/-- Witness for the amended claim C1: the NVIDIA constant-quality cell and
the software CRF cell, at concrete configurations. -/
theorem claim_C1_witness :
    build_video_encoder cfgNvencCq =
      encoderStanzaHeader cfgNvencCq h264NvencEncoder
        ++ ["-rc", "constqp", "-cq", "23"]
        ++ encoderStanzaTail cfgNvencCq h264NvencEncoder
    ∧ build_video_encoder cfgX264Crf =
      encoderStanzaHeader cfgX264Crf libx264Encoder
        ++ ["-crf", "23"]
        ++ encoderStanzaTail cfgX264Crf libx264Encoder :=
  ⟨claim_C1_amended_table cfgNvencCq h264NvencEncoder ["-rc", "constqp", "-cq", "23"]
      rfl (by decide),
   claim_C1_amended_table cfgX264Crf libx264Encoder ["-crf", "23"] rfl (by decide)⟩

/-- Two stats snapshots with equal fields are equal. -/
theorem recorderStatsExt (a b : RecorderStats)
    (h1 : a.duration = b.duration) (h2 : a.file_size = b.file_size)
    (h3 : a.dropped_frames = b.dropped_frames) (h4 : a.fps = b.fps)
    (h5 : a.bitrate = b.bitrate) (h6 : a.encoder_used = b.encoder_used) : a = b := by
  cases a
  cases b
  simp_all

/-- Claim C8: the telemetry parser updates exactly the stats fields whose
tokens it parses from the chunk — each missing token leaves its field at
the prior value, each present token overwrites only its own field, and the
fields no pattern targets (file size, encoder name) are never touched; in
particular a chunk containing only a bitrate token updates bitrate and
leaves fps, duration and the dropped-frame count unchanged. -/
theorem claim_C8_partial_update (stats : RecorderStats) (text : String) :
    (((parse_ffmpeg_output stats text).file_size = stats.file_size
      ∧ (parse_ffmpeg_output stats text).encoder_used = stats.encoder_used)
    ∧ (scanKeyNumber ("fps=".toList) text.toList = none →
        (parse_ffmpeg_output stats text).fps = stats.fps)
    ∧ (∀ ds fs, scanKeyNumber ("fps=".toList) text.toList = some (ds, fs) →
        (parse_ffmpeg_output stats text).fps = numValue ds fs)
    ∧ (scanBitrate text.toList = none →
        (parse_ffmpeg_output stats text).bitrate = stats.bitrate)
    ∧ (∀ ds fs, scanBitrate text.toList = some (ds, fs) →
        (parse_ffmpeg_output stats text).bitrate = numValue ds fs)
    ∧ (scanTime text.toList = none →
        (parse_ffmpeg_output stats text).duration = stats.duration)
    ∧ (∀ hh mm ss, scanTime text.toList = some (hh, mm, ss) →
        (parse_ffmpeg_output stats text).duration =
          (hh : ℚ) * 3600 + (mm : ℚ) * 60 + ss)
    ∧ (scanDrop text.toList = none →
        (parse_ffmpeg_output stats text).dropped_frames = stats.dropped_frames)
    ∧ (∀ d, scanDrop text.toList = some d →
        (parse_ffmpeg_output stats text).dropped_frames = (d : Int)))
    ∧ parse_ffmpeg_output stats "bitrate= 1000.0kbits/s" =
        { stats with bitrate := 1000 } := by
  have hgen : ∀ t : String,
      (((parse_ffmpeg_output stats t).file_size = stats.file_size
        ∧ (parse_ffmpeg_output stats t).encoder_used = stats.encoder_used)
      ∧ (scanKeyNumber ("fps=".toList) t.toList = none →
          (parse_ffmpeg_output stats t).fps = stats.fps)
      ∧ (∀ ds fs, scanKeyNumber ("fps=".toList) t.toList = some (ds, fs) →
          (parse_ffmpeg_output stats t).fps = numValue ds fs)
      ∧ (scanBitrate t.toList = none →
          (parse_ffmpeg_output stats t).bitrate = stats.bitrate)
      ∧ (∀ ds fs, scanBitrate t.toList = some (ds, fs) →
          (parse_ffmpeg_output stats t).bitrate = numValue ds fs)
      ∧ (scanTime t.toList = none →
          (parse_ffmpeg_output stats t).duration = stats.duration)
      ∧ (∀ hh mm ss, scanTime t.toList = some (hh, mm, ss) →
          (parse_ffmpeg_output stats t).duration =
            (hh : ℚ) * 3600 + (mm : ℚ) * 60 + ss)
      ∧ (scanDrop t.toList = none →
          (parse_ffmpeg_output stats t).dropped_frames = stats.dropped_frames)
      ∧ (∀ d, scanDrop t.toList = some d →
          (parse_ffmpeg_output stats t).dropped_frames = (d : Int))) := by
    intro t
    rcases h1 : scanKeyNumber ("fps=".toList) t.toList with _ | ⟨ds1, fs1⟩ <;>
    rcases h2 : scanBitrate t.toList with _ | ⟨ds2, fs2⟩ <;>
    rcases h3 : scanTime t.toList with _ | ⟨th, tm, ts⟩ <;>
    rcases h4 : scanDrop t.toList with _ | d4 <;>
      simp_all [parse_ffmpeg_output]
  refine ⟨hgen text, ?_⟩
  have d1 : digitsToNat ['1', '0', '0', '0'] = 1000 := by decide
  have d2 : digitsToNat ['0'] = 0 := by decide
  have ev : numValue ['1', '0', '0', '0'] (some ['0']) = 1000 := by
    simp [numValue, d1, d2]
  have hfps := (hgen "bitrate= 1000.0kbits/s").2.1 (by decide)
  have hb := (hgen "bitrate= 1000.0kbits/s").2.2.2.2.1 ['1', '0', '0', '0']
    (some ['0']) (by decide)
  have hdur := (hgen "bitrate= 1000.0kbits/s").2.2.2.2.2.1 (by decide)
  have hdrop := (hgen "bitrate= 1000.0kbits/s").2.2.2.2.2.2.2.1 (by decide)
  have hfile := (hgen "bitrate= 1000.0kbits/s").1.1
  have henc := (hgen "bitrate= 1000.0kbits/s").1.2
  apply recorderStatsExt <;>
    simp [hb, hfps, hdur, hdrop, hfile, henc, ev]

/-- Witness for claim C8 at a concrete stats snapshot and a chunk carrying
only a bitrate token. -/
theorem claim_C8_witness :
    (parse_ffmpeg_output ⟨7, 9, 3, 25, 6, "enc"⟩ "bitrate= 1000.0kbits/s").fps = 25
    ∧ parse_ffmpeg_output ⟨7, 9, 3, 25, 6, "enc"⟩ "bitrate= 1000.0kbits/s" =
        ⟨7, 9, 3, 25, 1000, "enc"⟩ := by
  constructor
  · exact (claim_C8_partial_update ⟨7, 9, 3, 25, 6, "enc"⟩
      "bitrate= 1000.0kbits/s").1.2.1 (by decide)
  · have h := (claim_C8_partial_update ⟨7, 9, 3, 25, 6, "enc"⟩
      "bitrate= 1000.0kbits/s").2
    rw [h]

end FFScreenRec
